import Mathlib

/-!
Shallow embedding of `src/web_scraper/tos_data_scraper.py`, a linear
scraping pipeline: authenticate against a login form, fetch listing pages
1..TOTAL_PAGES in order, extract one link per qualifying table row, and
write the collected links to a CSV file.

HTTP is modelled by an environment `Env` mapping request URLs to response
status codes and to the two parsed views of response bodies the program
uses (the first `input` element named `authenticity_token` of the login
page, and the list of `tr.toSort` rows of a listing page).  Python
exceptions are modelled with `Except PyError`; the list of issued HTTP
requests is threaded explicitly so that statements about which requests a
run performs can be made.
-/

/-- Constants of the script (`BASE_URL` and the URLs derived from it). -/
def BASE_URL : String := "https://edit.tosdr.org"

/-- The login endpoint, `BASE_URL + "/users/sign_in"`. -/
def LOGIN_URL : String := BASE_URL ++ "/users/sign_in"

/-- The listing endpoint, `BASE_URL + "/services"`. -/
def SERVICES_URL : String := BASE_URL ++ "/services"

/-- Fixed inter-request delay in seconds (observable only as real time). -/
def DELAY : Nat := 5

/-- Fixed number of listing pages scraped by `main`. -/
def TOTAL_PAGES : Nat := 328

/-- Hard-coded placeholder credentials from `main`. -/
def EMAIL : String := "YOUR_EMAIL"

/-- Hard-coded placeholder password from `main`. -/
def PASSWORD : String := "YOUR_PASSWORD"

/-- Python exceptions the script can raise: `requests.HTTPError` from
`raise_for_status` (carrying the status code), `AttributeError` from an
attribute access on `None`, and `KeyError` from a missing tag attribute. -/
inductive PyError where
  | httpError (status : Nat)
  | attributeError
  | keyError
deriving DecidableEq, Repr

/-- Decidable equality of `Except` results, used to evaluate the
embedding on concrete inputs. -/
instance {e a : Type} [DecidableEq e] [DecidableEq a] :
    DecidableEq (Except e a) := fun x y =>
  match x, y with
  | Except.error u, Except.error v =>
    if h : u = v then isTrue (by rw [h])
    else isFalse (by intro hc; injection hc with h2; exact h h2)
  | Except.error _, Except.ok _ => isFalse (by intro hc; exact Except.noConfusion hc)
  | Except.ok _, Except.error _ => isFalse (by intro hc; exact Except.noConfusion hc)
  | Except.ok u, Except.ok v =>
    if h : u = v then isTrue (by rw [h])
    else isFalse (by intro hc; injection hc with h2; exact h h2)

/-- An anchor (`<a>`) element as the script observes it: its optional
`href` attribute (`link_elem['href']` raises `KeyError` when absent). -/
structure ATag where
  href : Option String
deriving DecidableEq, Repr

/-- A `<td class="text-right">` cell as the script observes it: `a` is its
first anchor descendant (`.a` in BeautifulSoup), if any. -/
structure TextRightCell where
  a : Option ATag
deriving DecidableEq, Repr

/-- A `<tr class="toSort">` row: `cell` is the result of
`row.find('td', class_='text-right')`, `none` when no such cell exists. -/
structure ToSortRow where
  cell : Option TextRightCell
deriving DecidableEq, Repr

/-- One HTTP request issued through the session. -/
inductive Request where
  | get (url : String)
  | post (url : String)
deriving DecidableEq, Repr

/-- The list of HTTP requests a run has issued, in order. -/
abbrev Trace := List Request

/-- The remote site, fixed for one run: response status per GET URL,
response status per POST URL, and the two parsed views of GET bodies the
script takes (the first `input[name=authenticity_token]`, as
`some attrs` with `attrs` the optional `value` attribute, and the list of
`tr.toSort` rows). -/
structure Env where
  getStatus : String → Nat
  postStatus : String → Nat
  tokenInput : String → Option (Option String)
  rows : String → List ToSortRow

/-- `requests.Response.raise_for_status`: raises `HTTPError` exactly for
status codes in 400..599. -/
def raise_check (status : Nat) : Except PyError Unit :=
  if 400 ≤ status ∧ status < 600 then Except.error (PyError.httpError status)
  else Except.ok ()

/-- `fetch_csrf_token(session)`: GET the login page, raise for a 4xx/5xx
status, then look up the token input.  Returns `none` when the input
element is absent (after logging an error); raises `KeyError` when the
element exists but has no `value` attribute (`token_input['value']`). -/
def fetch_csrf_token (env : Env) (tr : Trace) :
    Except PyError (Option String) × Trace :=
  let tr2 := tr ++ [Request.get LOGIN_URL]
  match raise_check (env.getStatus LOGIN_URL) with
  | Except.error e => (Except.error e, tr2)
  | Except.ok _ =>
    match env.tokenInput LOGIN_URL with
    | none => (Except.ok none, tr2)
    | some none => (Except.error PyError.keyError, tr2)
    | some (some v) => (Except.ok (some v), tr2)

/-- `login(session, email, password)`: fetch the CSRF token; a falsy token
(`None` or the empty string) yields `False` without a POST; otherwise POST
the credential form and return `True` exactly when the response status is
200. -/
def login (env : Env) (email password : String) (tr : Trace) :
    Except PyError Bool × Trace :=
  let fetched := fetch_csrf_token env tr
  match fetched.1 with
  | Except.error e => (Except.error e, fetched.2)
  | Except.ok none => (Except.ok false, fetched.2)
  | Except.ok (some t) =>
    if t = "" then (Except.ok false, fetched.2)
    else
      let tr3 := fetched.2 ++ [Request.post LOGIN_URL]
      if env.postStatus LOGIN_URL = 200 then (Except.ok true, tr3)
      else (Except.ok false, tr3)

/-- The page URL computed by `scrape_page`: the listing URL unmodified for
page 1 (and below), with a `page` query parameter appended for pages
greater than 1. -/
def page_url (page_number : Nat) : String :=
  if page_number > 1 then SERVICES_URL ++ ("?page=" ++ toString page_number)
  else SERVICES_URL

/-- The link-extraction loop of `scrape_page`:
`row.find('td', class_='text-right').a` raises `AttributeError` when the
cell is absent (`.a` on `None`); a cell without an anchor is skipped
(`link_elem` is `None`, falsy); `link_elem['href']` raises `KeyError` when
the anchor has no `href`; otherwise `BASE_URL + href` is appended. -/
def extract_links : List ToSortRow → Except PyError (List String)
  | [] => Except.ok []
  | row :: rest =>
    match row.cell with
    | none => Except.error PyError.attributeError
    | some cell =>
      match cell.a with
      | none => extract_links rest
      | some a =>
        match a.href with
        | none => Except.error PyError.keyError
        | some h =>
          match extract_links rest with
          | Except.error e => Except.error e
          | Except.ok links => Except.ok ((BASE_URL ++ h) :: links)

/-- `scrape_page(session, page_number)`: GET the page URL, raise for a
4xx/5xx status, extract the links of all `tr.toSort` rows, sleep, return
the links. -/
def scrape_page (env : Env) (page_number : Nat) (tr : Trace) :
    Except PyError (List String) × Trace :=
  let url := page_url page_number
  let tr2 := tr ++ [Request.get url]
  match raise_check (env.getStatus url) with
  | Except.error e => (Except.error e, tr2)
  | Except.ok _ => (extract_links (env.rows url), tr2)

/-- The pagination loop of `main`: scrape each page in list order and
append its links, in order, to the accumulated list; any exception
propagates immediately. -/
def scrape_pages (env : Env) : List Nat → Trace → Except PyError (List String) × Trace
  | [], tr => (Except.ok [], tr)
  | p :: ps, tr =>
    let step := scrape_page env p tr
    match step.1 with
    | Except.error e => (Except.error e, step.2)
    | Except.ok l =>
      let rest := scrape_pages env ps step.2
      match rest.1 with
      | Except.error e => (Except.error e, rest.2)
      | Except.ok links => (Except.ok (l ++ links), rest.2)

/-- One CSV field under the default `csv.writer` dialect (QUOTE_MINIMAL):
quoted, with inner quotes doubled, exactly when the field contains a
delimiter, a quote character, or a line-break character. -/
def csv_field (s : String) : String :=
  if s.any (fun c => c = ',' || c = '\"' || c = '\r' || c = '\n') then
    "\"" ++ String.join (s.data.map
      (fun c => if c = '\"' then "\"\"" else String.singleton c)) ++ "\""
  else s

/-- One single-field CSV row: the field followed by the default
line terminator `\r\n`. -/
def csv_row (s : String) : String := csv_field s ++ "\r\n"

/-- The bytes `main` writes to `tos_links.csv`: the header row
`ToS Links`, then one row per collected link, in order. -/
def render_csv (links : List String) : String :=
  csv_row "ToS Links" ++ String.join (links.map csv_row)

/-- The observable outcome of one run of `main` (generalised over the page
count): the file contents written on success, a clean early return on
login failure, or an uncaught exception. -/
inductive RunResult where
  | wrote (contents : String)
  | loginFailed
  | crashed (e : PyError)
deriving DecidableEq, Repr

/-- `main`, generalised over the number of pages: log in once with the
hard-coded credentials; on a `False` result return without fetching any
page or touching the file; otherwise scrape pages 1..totalPages in order,
then write header plus links to the output file.  Uncaught exceptions
surface as `crashed`. -/
def run_pipeline (env : Env) (totalPages : Nat) : RunResult × Trace :=
  let auth := login env EMAIL PASSWORD []
  match auth.1 with
  | Except.error e => (RunResult.crashed e, auth.2)
  | Except.ok false => (RunResult.loginFailed, auth.2)
  | Except.ok true =>
    let scraped := scrape_pages env (List.range' 1 totalPages) auth.2
    match scraped.1 with
    | Except.error e => (RunResult.crashed e, scraped.2)
    | Except.ok links => (RunResult.wrote (render_csv links), scraped.2)

/-- The script's `main`: the pipeline over the fixed `TOTAL_PAGES`. -/
def main_run (env : Env) : RunResult × Trace := run_pipeline env TOTAL_PAGES

/-- Contents of `tos_links.csv` after a run, given its contents before:
only a completed run replaces the file (opened with mode `w` only after
the pagination loop finishes); a login failure or a crash leaves it
untouched. -/
def final_file (r : RunResult) (init : Option String) : Option String :=
  match r with
  | RunResult.wrote c => some c
  | RunResult.loginFailed => init
  | RunResult.crashed _ => init

/-- The link a single row contributes, if any: `BASE_URL + href` of the
first anchor of the row's `text-right` cell. -/
def row_link (r : ToSortRow) : Option String :=
  match r.cell with
  | none => none
  | some cell =>
    match cell.a with
    | none => none
    | some a =>
      match a.href with
      | none => none
      | some h => some (BASE_URL ++ h)

/-- The result part of `scrape_page` does not depend on the trace
accumulated so far. -/
theorem scrape_page_fst_indep (env : Env) (p : Nat) (tr tr' : Trace) :
    (scrape_page env p tr).1 = (scrape_page env p tr').1 := by
  simp only [scrape_page]
  cases raise_check (env.getStatus (page_url p)) <;> rfl

/-- `fetch_csrf_token` issues exactly one GET of the login URL. -/
theorem fetch_csrf_token_trace (env : Env) (tr : Trace) :
    (fetch_csrf_token env tr).2 = tr ++ [Request.get LOGIN_URL] := by
  simp only [fetch_csrf_token]
  cases raise_check (env.getStatus LOGIN_URL) with
  | error e => rfl
  | ok u =>
    rcases env.tokenInput LOGIN_URL with _ | v
    · rfl
    · rcases v with _ | v <;> rfl

/-- Every request issued by `login` targets the login URL. -/
theorem login_trace_mem (env : Env) (email password : String) (r : Request)
    (hr : r ∈ (login env email password []).2) :
    r = Request.get LOGIN_URL ∨ r = Request.post LOGIN_URL := by
  have htr := fetch_csrf_token_trace env []
  simp only [List.nil_append] at htr
  simp only [login] at hr
  rcases hf : (fetch_csrf_token env []).1 with e | o
  · simp only [hf, htr] at hr
    simp at hr
    simp [hr]
  · rcases o with _ | t
    · simp only [hf, htr] at hr
      simp at hr
      simp [hr]
    · by_cases ht : t = ""
      · simp only [hf, htr, if_pos ht] at hr
        simp at hr
        simp [hr]
      · by_cases hp : env.postStatus LOGIN_URL = 200 <;>
          simp only [hf, htr, if_neg ht, if_pos, if_neg, hp, ite_true, ite_false] at hr <;>
          simp at hr <;> rcases hr with hr | hr <;> simp [hr]

/-- No page URL coincides with the login URL. -/
theorem page_url_ne_login (p : Nat) : page_url p ≠ LOGIN_URL := by
  unfold page_url
  split
  · intro h
    have hlen := congrArg String.length h
    rw [String.length_append, String.length_append] at hlen
    have h1 : SERVICES_URL.length = 31 := by decide
    have h2 : ("?page=").length = 6 := by decide
    have h3 : LOGIN_URL.length = 36 := by decide
    omega
  · decide

/-- Claim C7: for a positive page index, `scrape_page` requests the bare
listing URL for page 1, and the listing URL with a `page` query parameter
equal to the index for pages greater than 1. -/
theorem C7_page_url_shape (n : Nat) (h : 1 ≤ n) :
    (n = 1 → page_url n = SERVICES_URL) ∧
    (1 < n → page_url n = SERVICES_URL ++ ("?page=" ++ toString n)) := by
  constructor
  · intro h1; subst h1; rfl
  · intro h1; unfold page_url; rw [if_pos h1]

/-- Witness for C7 at page 2. -/
theorem C7_witness :
    (1 : Nat) ≤ 2 ∧
    ((2 = 1 → page_url 2 = SERVICES_URL) ∧
     (1 < 2 → page_url 2 = SERVICES_URL ++ ("?page=" ++ toString 2))) :=
  ⟨by decide, C7_page_url_shape 2 (by decide)⟩

/-- Claim C2 counterexample: a sortable row whose text-right cell is
absent makes link extraction raise `AttributeError` (`.a` on `None`)
rather than being skipped silently. -/
theorem C2_cex :
    extract_links [ToSortRow.mk none] = Except.error PyError.attributeError ∧
    extract_links [ToSortRow.mk none] ≠ Except.ok [] := by
  constructor
  · rfl
  · intro h
    simp [extract_links] at h

/-- Claim C2 (amended): a row whose text-right cell exists but contains no
anchor is skipped silently with no error; but a row with no text-right
cell at all raises `AttributeError` instead of being skipped. -/
theorem C2_row_skip (rest : List ToSortRow) :
    extract_links (ToSortRow.mk (some (TextRightCell.mk none)) :: rest)
      = extract_links rest ∧
    extract_links (ToSortRow.mk none :: rest)
      = Except.error PyError.attributeError := by
  constructor <;> rfl

/-- Claim C6 counterexample: with K = 2 rows of which M = 1 contains an
anchor, extraction raises `AttributeError` on the cell-less row instead of
returning 1 URL; and an anchor without an `href` attribute raises
`KeyError` instead of yielding a URL. -/
theorem C6_cex :
    extract_links
      [ToSortRow.mk (some (TextRightCell.mk (some (ATag.mk (some "/service/1"))))),
       ToSortRow.mk none] = Except.error PyError.attributeError ∧
    extract_links [ToSortRow.mk (some (TextRightCell.mk (some (ATag.mk none))))]
      = Except.error PyError.keyError := by
  constructor <;> rfl

/-- Whether the anchor of a row's text-right cell, when that anchor
exists, carries an `href` attribute. -/
def anchor_has_href (r : ToSortRow) : Bool :=
  match (ToSortRow.cell r).bind TextRightCell.a with
  | none => true
  | some a => (ATag.href a).isSome

/-- Claim C6 (amended): provided every sortable row has a text-right cell
and every anchor found in such a cell carries an `href` attribute, link
extraction succeeds and returns, in row order, one URL per row whose cell
contains an anchor, each equal to `BASE_URL` concatenated with that row's
relative href; the number of URLs equals the number of rows with an
anchor. -/
theorem C6_extract_links (rows : List ToSortRow)
    (hcell : ∀ r ∈ rows, (ToSortRow.cell r).isSome)
    (hhref : ∀ r ∈ rows, anchor_has_href r = true) :
    extract_links rows = Except.ok (rows.filterMap row_link) ∧
    (rows.filterMap row_link).length
      = (rows.filter
          (fun r => ((ToSortRow.cell r).bind TextRightCell.a).isSome)).length := by
  induction rows with
  | nil => exact ⟨rfl, rfl⟩
  | cons r rest ih =>
    obtain ⟨ih1, ih2⟩ := ih (fun x hx => hcell x (List.mem_cons_of_mem r hx))
      (fun x hx => hhref x (List.mem_cons_of_mem r hx))
    rcases hc : ToSortRow.cell r with _ | c
    · exact absurd (hcell r (List.mem_cons_self r rest)) (by simp [hc])
    · rcases ha : TextRightCell.a c with _ | a
      · constructor
        · rw [show extract_links (r :: rest) = extract_links rest by
            simp only [extract_links, hc, ha]]
          rw [ih1]
          simp [List.filterMap_cons, row_link, hc, ha]
        · simp [List.filterMap_cons, List.filter_cons, row_link, hc, ha, ih2]
      · rcases hh : ATag.href a with _ | h
        · exact absurd (hhref r (List.mem_cons_self r rest))
            (by simp [anchor_has_href, hc, ha, hh])
        · constructor
          · rw [show extract_links (r :: rest)
                = match extract_links rest with
                  | Except.error e => Except.error e
                  | Except.ok links => Except.ok ((BASE_URL ++ h) :: links) by
              simp only [extract_links, hc, ha, hh]]
            rw [ih1]
            simp [List.filterMap_cons, row_link, hc, ha, hh]
          · simp [List.filterMap_cons, List.filter_cons, row_link, hc, ha, hh, ih2]

/-- Witness for C6: two rows, one with an anchor and one with an empty
cell, yield exactly one URL. -/
theorem C6_witness :
    (∀ r ∈ [ToSortRow.mk (some (TextRightCell.mk (some (ATag.mk (some "/service/1"))))),
            ToSortRow.mk (some (TextRightCell.mk none))],
       (ToSortRow.cell r).isSome) ∧
    (∀ r ∈ [ToSortRow.mk (some (TextRightCell.mk (some (ATag.mk (some "/service/1"))))),
            ToSortRow.mk (some (TextRightCell.mk none))],
       anchor_has_href r = true) ∧
    extract_links [ToSortRow.mk (some (TextRightCell.mk (some (ATag.mk (some "/service/1"))))),
        ToSortRow.mk (some (TextRightCell.mk none))]
      = Except.ok ([ToSortRow.mk (some (TextRightCell.mk (some (ATag.mk (some "/service/1"))))),
          ToSortRow.mk (some (TextRightCell.mk none))].filterMap row_link) :=
  ⟨by decide, by decide,
   (C6_extract_links _ (by decide) (by decide)).1⟩

/-- Claim C10: `fetch_csrf_token` returns `None` exactly when the login
page has no `input` named `authenticity_token`; if the input exists but
lacks a `value` attribute, the lookup `token_input['value']` raises
`KeyError` instead of returning `None`. -/
theorem C10_token (env : Env)
    (hok : ¬(400 ≤ env.getStatus LOGIN_URL ∧ env.getStatus LOGIN_URL < 600)) :
    ((fetch_csrf_token env []).1 = Except.ok none ↔ env.tokenInput LOGIN_URL = none) ∧
    (env.tokenInput LOGIN_URL = some none →
      (fetch_csrf_token env []).1 = Except.error PyError.keyError) := by
  simp only [fetch_csrf_token, raise_check, if_neg hok]
  rcases ht : env.tokenInput LOGIN_URL with _ | v
  · simp
  · rcases v with _ | v <;> simp

/-- Environment whose login page lacks the token input. -/
def env_no_token : Env :=
  { getStatus := fun _ => 200, postStatus := fun _ => 200,
    tokenInput := fun _ => none, rows := fun _ => [] }

/-- Witness for C10 on a login page without the token input. -/
theorem C10_witness :
    ¬(400 ≤ env_no_token.getStatus LOGIN_URL ∧ env_no_token.getStatus LOGIN_URL < 600) ∧
    (((fetch_csrf_token env_no_token []).1 = Except.ok none
        ↔ env_no_token.tokenInput LOGIN_URL = none) ∧
     (env_no_token.tokenInput LOGIN_URL = some none →
       (fetch_csrf_token env_no_token []).1 = Except.error PyError.keyError)) :=
  ⟨by decide, C10_token env_no_token (by decide)⟩

/-- Claim C8: once `login` reaches the POST step (token fetched, truthy),
it returns `True` exactly when the POST status is 200; any other status
yields `False`, with no inspection of the response body. -/
theorem C8_login_post (env : Env) (email password : String) (t : String)
    (hok : ¬(400 ≤ env.getStatus LOGIN_URL ∧ env.getStatus LOGIN_URL < 600))
    (htok : env.tokenInput LOGIN_URL = some (some t)) (ht : t ≠ "") :
    ((login env email password []).1 = Except.ok true
      ↔ env.postStatus LOGIN_URL = 200) ∧
    (env.postStatus LOGIN_URL ≠ 200 →
      (login env email password []).1 = Except.ok false) := by
  simp only [login, fetch_csrf_token, raise_check, if_neg hok, htok, if_neg ht]
  by_cases hp : env.postStatus LOGIN_URL = 200 <;> simp [hp]

/-- Environment where login reaches the POST step and the POST fails. -/
def env_post_401 : Env :=
  { getStatus := fun _ => 200, postStatus := fun _ => 401,
    tokenInput := fun _ => some (some "tok123"), rows := fun _ => [] }

/-- Witness for C8 on a POST returning 401. -/
theorem C8_witness :
    ¬(400 ≤ env_post_401.getStatus LOGIN_URL ∧ env_post_401.getStatus LOGIN_URL < 600) ∧
    env_post_401.tokenInput LOGIN_URL = some (some "tok123") ∧
    "tok123" ≠ "" ∧
    (((login env_post_401 EMAIL PASSWORD []).1 = Except.ok true
        ↔ env_post_401.postStatus LOGIN_URL = 200) ∧
     (env_post_401.postStatus LOGIN_URL ≠ 200 →
       (login env_post_401 EMAIL PASSWORD []).1 = Except.ok false)) :=
  ⟨by decide, by decide, by decide,
   C8_login_post env_post_401 EMAIL PASSWORD "tok123" (by decide) (by decide) (by decide)⟩

/-- The result part of the pagination loop does not depend on the trace
accumulated so far. -/
theorem scrape_pages_fst_indep (env : Env) (ps : List Nat) (tr tr' : Trace) :
    (scrape_pages env ps tr).1 = (scrape_pages env ps tr').1 := by
  induction ps generalizing tr tr' with
  | nil => rfl
  | cons p ps ih =>
    simp only [scrape_pages]
    rw [scrape_page_fst_indep env p tr tr']
    cases hfs : (scrape_page env p tr').1 with
    | error e => rfl
    | ok l =>
      rw [ih (scrape_page env p tr).2 (scrape_page env p tr').2]
      cases (scrape_pages env ps (scrape_page env p tr').2).1 <;> rfl

/-- If every page in the list scrapes successfully, the pagination loop
returns the concatenation of the per-page link lists, in list order. -/
theorem scrape_pages_ok (env : Env) (ps : List Nat) (pls : Nat → List String)
    (h : ∀ p ∈ ps, (scrape_page env p []).1 = Except.ok (pls p)) (tr : Trace) :
    (scrape_pages env ps tr).1 = Except.ok (List.flatten (ps.map pls)) := by
  induction ps generalizing tr with
  | nil => rfl
  | cons p ps ih =>
    have h1 : (scrape_page env p tr).1 = Except.ok (pls p) := by
      rw [scrape_page_fst_indep env p tr []]
      exact h p (List.mem_cons_self p ps)
    simp only [scrape_pages, h1]
    rw [ih (fun q hq2 => h q (List.mem_cons_of_mem p hq2)) (scrape_page env p tr).2]
    simp [List.map_cons, List.flatten_cons]

/-- If some page of the list fails to scrape, the pagination loop raises. -/
theorem scrape_pages_err (env : Env) (p : Nat) (e0 : PyError)
    (he : (scrape_page env p []).1 = Except.error e0) :
    ∀ ps : List Nat, p ∈ ps → ∀ tr, ∃ e,
      (scrape_pages env ps tr).1 = Except.error e := by
  intro ps
  induction ps with
  | nil => intro h; cases h
  | cons q ps ih =>
    intro hp tr
    rcases hq : (scrape_page env q tr).1 with e | l
    · refine ⟨e, ?_⟩
      simp only [scrape_pages, hq]
    · rcases List.mem_cons.mp hp with h | h
      · subst h
        have hcontra : (scrape_page env p tr).1 = Except.error e0 := by
          rw [scrape_page_fst_indep env p tr []]
          exact he
        rw [hq] at hcontra
        exact absurd hcontra (by simp)
      · obtain ⟨e, h2⟩ := ih h (scrape_page env q tr).2
        refine ⟨e, ?_⟩
        simp only [scrape_pages, hq, h2]

/-- When login succeeds, the run outcome is determined by the pagination
loop alone: a crash on its exception, otherwise the rendered CSV. -/
theorem run_pipeline_auth_ok (env : Env) (N : Nat)
    (h : (login env EMAIL PASSWORD []).1 = Except.ok true) :
    (run_pipeline env N).1 =
      match (scrape_pages env (List.range' 1 N) []).1 with
      | Except.error e => RunResult.crashed e
      | Except.ok links => RunResult.wrote (render_csv links) := by
  simp only [run_pipeline, h]
  rw [scrape_pages_fst_indep env (List.range' 1 N) (login env EMAIL PASSWORD []).2 []]
  cases (scrape_pages env (List.range' 1 N) []).1 <;> rfl

/-- Claim C3: on a successful run over pages 1..N (login succeeded and
every page scrape returned its link list), the file contents are the CSV
rendering of the concatenation, in page order, of the per-page link lists
(each in row order), so the number of link rows equals the sum over the
pages of the number of links extracted from each page, with nothing
duplicated or dropped. -/
theorem C3_output_rows (env : Env) (N : Nat) (pls : Nat → List String)
    (hlogin : (login env EMAIL PASSWORD []).1 = Except.ok true)
    (hpages : ∀ p ∈ List.range' 1 N, (scrape_page env p []).1 = Except.ok (pls p)) :
    (run_pipeline env N).1
      = RunResult.wrote (render_csv (List.flatten ((List.range' 1 N).map pls))) ∧
    (List.flatten ((List.range' 1 N).map pls)).length
      = (((List.range' 1 N).map pls).map List.length).sum := by
  constructor
  · rw [run_pipeline_auth_ok env N hlogin,
      scrape_pages_ok env (List.range' 1 N) pls hpages []]
  · exact List.length_flatten _

/-- Environment with two listing pages: two links on page 1, one on
page 2. -/
def env_two_pages : Env :=
  { getStatus := fun _ => 200,
    postStatus := fun _ => 200,
    tokenInput := fun _ => some (some "tok123"),
    rows := fun url =>
      if url = SERVICES_URL then
        [ToSortRow.mk (some (TextRightCell.mk (some (ATag.mk (some "/service/1"))))),
         ToSortRow.mk (some (TextRightCell.mk (some (ATag.mk (some "/service/2")))))]
      else if url = SERVICES_URL ++ ("?page=" ++ toString 2) then
        [ToSortRow.mk (some (TextRightCell.mk (some (ATag.mk (some "/service/3")))))]
      else [] }

/-- Per-page links of `env_two_pages`. -/
def pls_two : Nat → List String := fun p =>
  if p = 1 then [BASE_URL ++ "/service/1", BASE_URL ++ "/service/2"]
  else if p = 2 then [BASE_URL ++ "/service/3"]
  else []

/-- Witness for C3 on a two-page run collecting three links. -/
theorem C3_witness :
    ((login env_two_pages EMAIL PASSWORD []).1 = Except.ok true) ∧
    (∀ p ∈ List.range' 1 2, (scrape_page env_two_pages p []).1 = Except.ok (pls_two p)) ∧
    ((run_pipeline env_two_pages 2).1
        = RunResult.wrote (render_csv (List.flatten ((List.range' 1 2).map pls_two))) ∧
     (List.flatten ((List.range' 1 2).map pls_two)).length
        = (((List.range' 1 2).map pls_two).map List.length).sum) :=
  ⟨by decide, by decide,
   C3_output_rows env_two_pages 2 pls_two (by decide) (by decide)⟩

/-- Claim C4: if login succeeded but some listing-page GET in range
returns a non-success (4xx/5xx) status, the run ends in an uncaught
exception before the write phase: the output file is not produced (its
prior state is untouched). -/
theorem C4_page_fetch_fatal (env : Env) (N p : Nat) (init : Option String)
    (hlogin : (login env EMAIL PASSWORD []).1 = Except.ok true)
    (hp : p ∈ List.range' 1 N)
    (hbad : 400 ≤ env.getStatus (page_url p) ∧ env.getStatus (page_url p) < 600) :
    (∃ e, (run_pipeline env N).1 = RunResult.crashed e) ∧
    final_file (run_pipeline env N).1 init = init := by
  have hpage : (scrape_page env p []).1
      = Except.error (PyError.httpError (env.getStatus (page_url p))) := by
    simp only [scrape_page, raise_check, if_pos hbad]
  obtain ⟨e, he⟩ := scrape_pages_err env p _ hpage (List.range' 1 N) hp []
  have hrun : (run_pipeline env N).1 = RunResult.crashed e := by
    rw [run_pipeline_auth_ok env N hlogin, he]
  refine ⟨⟨e, hrun⟩, ?_⟩
  rw [hrun]
  rfl

/-- Environment whose login works but whose listing pages all return
status 500. -/
def env_page_500 : Env :=
  { getStatus := fun url => if url = LOGIN_URL then 200 else 500,
    postStatus := fun _ => 200,
    tokenInput := fun _ => some (some "tok123"),
    rows := fun _ => [] }

/-- Witness for C4: page 1 returns 500, run crashes, file untouched. -/
theorem C4_witness :
    ((login env_page_500 EMAIL PASSWORD []).1 = Except.ok true) ∧
    (1 ∈ List.range' 1 1) ∧
    (400 ≤ env_page_500.getStatus (page_url 1) ∧
      env_page_500.getStatus (page_url 1) < 600) ∧
    ((∃ e, (run_pipeline env_page_500 1).1 = RunResult.crashed e) ∧
     final_file (run_pipeline env_page_500 1).1 none = none) :=
  ⟨by decide, by decide, by decide,
   C4_page_fetch_fatal env_page_500 1 1 none (by decide) (by decide) (by decide)⟩

/-- Claim C5: when authentication reports failure, the run terminates at
once: the outcome is the clean login-failure exit, the output file keeps
its prior state, and no listing page is ever requested. -/
theorem C5_login_failure_stops (env : Env) (N : Nat) (init : Option String)
    (h : (login env EMAIL PASSWORD []).1 = Except.ok false) :
    (run_pipeline env N).1 = RunResult.loginFailed ∧
    final_file (run_pipeline env N).1 init = init ∧
    ∀ p : Nat, Request.get (page_url p) ∉ (run_pipeline env N).2 := by
  have hrun : run_pipeline env N = (RunResult.loginFailed, (login env EMAIL PASSWORD []).2) := by
    simp only [run_pipeline, h]
  refine ⟨by rw [hrun], by rw [hrun]; rfl, ?_⟩
  intro p hmem
  rw [hrun] at hmem
  rcases login_trace_mem env EMAIL PASSWORD _ hmem with hg | hpst
  · exact page_url_ne_login p (by injection hg)
  · simp at hpst

/-- Witness for C5 with a failing POST (status 401) and a pre-existing
output file. -/
theorem C5_witness :
    ((login env_post_401 EMAIL PASSWORD []).1 = Except.ok false) ∧
    ((run_pipeline env_post_401 3).1 = RunResult.loginFailed ∧
     final_file (run_pipeline env_post_401 3).1 (some "old") = some "old" ∧
     ∀ p : Nat, Request.get (page_url p) ∉ (run_pipeline env_post_401 3).2) :=
  ⟨by decide, C5_login_failure_stops env_post_401 3 (some "old") (by decide)⟩

/-- Claim C9: with the remote responses fixed, running the pipeline a
second time leaves the output file exactly as the first run left it, and
whenever the run reaches the write phase the resulting file bytes do not
depend on the file's prior contents (the file is truncated and rewritten
from the collected links). -/
theorem C9_idempotent_output (env : Env) (N : Nat) (init₁ init₂ : Option String) :
    final_file ((run_pipeline env N).1) (final_file ((run_pipeline env N).1) init₁)
      = final_file ((run_pipeline env N).1) init₁ ∧
    (∀ c, (run_pipeline env N).1 = RunResult.wrote c →
      final_file ((run_pipeline env N).1) init₁
        = final_file ((run_pipeline env N).1) init₂) := by
  constructor
  · cases h : (run_pipeline env N).1 <;> simp [final_file]
  · intro c hc
    rw [hc]
    rfl

/-- Witness for C9 on the two-page environment, with differing prior file
contents. -/
theorem C9_witness :
    final_file ((run_pipeline env_two_pages 2).1)
        (final_file ((run_pipeline env_two_pages 2).1) none)
      = final_file ((run_pipeline env_two_pages 2).1) none ∧
    (∀ c, (run_pipeline env_two_pages 2).1 = RunResult.wrote c →
      final_file ((run_pipeline env_two_pages 2).1) none
        = final_file ((run_pipeline env_two_pages 2).1) (some "old")) :=
  C9_idempotent_output env_two_pages 2 none (some "old")

/-- Environment whose login-page GET returns 404. -/
def env_login_404 : Env :=
  { getStatus := fun _ => 404,
    postStatus := fun _ => 200,
    tokenInput := fun _ => some (some "tok123"),
    rows := fun _ => [] }

/-- Claim C1 counterexample: when the login-page GET returns 404, `login`
does not return `False` — `raise_for_status` raises an `HTTPError` that
nothing catches, so the top-level run crashes. -/
theorem C1_cex :
    (login env_login_404 EMAIL PASSWORD []).1
        = Except.error (PyError.httpError 404) ∧
    (login env_login_404 EMAIL PASSWORD []).1 ≠ Except.ok false ∧
    (run_pipeline env_login_404 1).1 = RunResult.crashed (PyError.httpError 404) := by
  refine ⟨by decide, ?_, by decide⟩
  intro h
  have h2 : (login env_login_404 EMAIL PASSWORD []).1
      = Except.error (PyError.httpError 404) := by decide
  rw [h2] at h
  exact Except.noConfusion h

/-- Claim C1 (amended): a non-success status on the login-page GET makes
`fetch_csrf_token` raise an `HTTPError` that propagates uncaught through
`login` and past `main`'s body: the run crashes with that exception
instead of surfacing a `False` authentication result. -/
theorem C1_login_fetch_error (env : Env) (N : Nat)
    (hbad : 400 ≤ env.getStatus LOGIN_URL ∧ env.getStatus LOGIN_URL < 600) :
    (login env EMAIL PASSWORD []).1
        = Except.error (PyError.httpError (env.getStatus LOGIN_URL)) ∧
    (run_pipeline env N).1
        = RunResult.crashed (PyError.httpError (env.getStatus LOGIN_URL)) := by
  have hf : (fetch_csrf_token env []).1
      = Except.error (PyError.httpError (env.getStatus LOGIN_URL)) := by
    simp only [fetch_csrf_token, raise_check, if_pos hbad]
  have hl : (login env EMAIL PASSWORD []).1
      = Except.error (PyError.httpError (env.getStatus LOGIN_URL)) := by
    simp only [login, hf]
  refine ⟨hl, ?_⟩
  simp only [run_pipeline, hl]

/-- Witness for C1 on the 404 environment. -/
theorem C1_witness :
    (400 ≤ env_login_404.getStatus LOGIN_URL ∧
      env_login_404.getStatus LOGIN_URL < 600) ∧
    ((login env_login_404 EMAIL PASSWORD []).1
        = Except.error (PyError.httpError (env_login_404.getStatus LOGIN_URL)) ∧
     (run_pipeline env_login_404 2).1
        = RunResult.crashed (PyError.httpError (env_login_404.getStatus LOGIN_URL))) :=
  ⟨by decide, C1_login_fetch_error env_login_404 2 (by decide)⟩
